import Mathlib

/-!
Verification of `libwifi_system/hostapd_manager.cpp` (HostapdManager).

The C++ code reads the init status property of the hostapd service and
conditionally issues a control write (`ctl.start` / `ctl.stop`) to the init
system.  We embed the two member functions `StartHostapd` and `StopHostapd`
as pure Lean functions over an injected property environment `PropEnv`
(the platform property store), returning the boolean result together with
the ordered trace of observable effects (property reads, property writes,
log lines).
-/

namespace HostapdManager

/-- One observable effect of a call: a property read (`property_get` with a
default value), a property write (`property_set`), or a log line. -/
inductive Effect where
  | propGet (key : String) (dflt : String) : Effect
  | propSet (key : String) (value : String) : Effect
  | logDebug (msg : String) : Effect
  | logError (msg : String) : Effect
  deriving DecidableEq, Repr

/-- The external property store, injected: `get key dflt` models
`property_get(key, buf, dflt)` and returns the observed value; `set key v`
models `property_set(key, v)` and returns its integer result code. -/
structure PropEnv where
  get : String → String → String
  set : String → String → Int

/-- `const char kHostapdServiceName[] = "hostapd";` -/
def kHostapdServiceName : String := "hostapd"

/-- `const char kHostapdFullServiceName[] = "init.svc.hostapd";` -/
def kHostapdFullServiceName : String := "init.svc.hostapd"

/-- `bool HostapdManager::StartHostapd()`, translated line by line.
Returns the boolean result and the ordered effect trace. -/
def StartHostapd (env : PropEnv) : Bool × List Effect :=
  let hostapd_status : String := env.get kHostapdFullServiceName ""
  let readE : Effect := Effect.propGet kHostapdFullServiceName ""
  if hostapd_status = "running" then
    (true, [readE, Effect.logDebug "SoftAP already started. Skip another start"])
  else if env.set "ctl.start" kHostapdServiceName ≠ 0 then
    (false, [readE, Effect.propSet "ctl.start" kHostapdServiceName,
             Effect.logError "Failed to start SoftAP"])
  else
    (true, [readE, Effect.propSet "ctl.start" kHostapdServiceName,
            Effect.logDebug "SoftAP started successfully"])

/-- `bool HostapdManager::StopHostapd()`, translated line by line.
Note the skip test is `!strlen(status) || strcmp(status, "stopped") == 0`
and the failure test is `property_set(...) < 0` (not `!= 0`). -/
def StopHostapd (env : PropEnv) : Bool × List Effect :=
  let log0 : Effect := Effect.logDebug "Stopping the SoftAP service..."
  let hostapd_status : String := env.get kHostapdFullServiceName ""
  let readE : Effect := Effect.propGet kHostapdFullServiceName ""
  if hostapd_status.length = 0 ∨ hostapd_status = "stopped" then
    (true, [log0, readE, Effect.logDebug "SoftAP already stopped. Skip another stop"])
  else if env.set "ctl.stop" kHostapdServiceName < 0 then
    (false, [log0, readE, Effect.propSet "ctl.stop" kHostapdServiceName,
             Effect.logError "Failed to stop hostapd service!"])
  else
    (true, [log0, readE, Effect.propSet "ctl.stop" kHostapdServiceName,
            Effect.logDebug "SoftAP stopped successfully"])

/-- Is this effect a property write? -/
def isPropSet : Effect → Bool
  | Effect.propSet _ _ => true
  | _ => false

/-- Is this effect a property read? -/
def isPropGet : Effect → Bool
  | Effect.propGet _ _ => true
  | _ => false

/-- Is this effect a log line (debug or error)? -/
def isLog : Effect → Bool
  | Effect.logDebug _ => true
  | Effect.logError _ => true
  | _ => false

/-- The property writes of a trace, in order. -/
def writesOf (es : List Effect) : List Effect :=
  es.filter isPropSet

/-- The property-store accesses (reads and writes) of a trace, in order. -/
def accessesOf (es : List Effect) : List Effect :=
  es.filter (fun e => isPropGet e || isPropSet e)

/-- Number of property writes performed by a trace. -/
def numWrites (es : List Effect) : Nat :=
  (writesOf es).length

/-- Does this effect write to property key `k`? -/
def setsToKey (k : String) (e : Effect) : Bool :=
  match e with
  | Effect.propSet key _ => key == k
  | _ => false

/-- Scenario A environment: status `"running"`, writes succeed (result 0). -/
def envA : PropEnv := ⟨fun _ _ => "running", fun _ _ => 0⟩

/-- Scenario B environment: status `""` (unset), writes succeed (result 0). -/
def envB : PropEnv := ⟨fun _ _ => "", fun _ _ => 0⟩

/-- Scenario C environment: status `"stopped"`, writes succeed (result 0). -/
def envC : PropEnv := ⟨fun _ _ => "stopped", fun _ _ => 0⟩

/-- Scenario D environment: status `"running"`, writes fail (result -1). -/
def envD : PropEnv := ⟨fun _ _ => "running", fun _ _ => -1⟩

/-- Environment where the status is `"running"` and the control write
returns the positive non-zero result 1. -/
def envPos : PropEnv := ⟨fun _ _ => "running", fun _ _ => 1⟩

/-- An environment observationally equal to `envA` on the status key and
the control writes, but different on every other key. -/
def envA2 : PropEnv :=
  ⟨fun k d => if k = kHostapdFullServiceName then "running" else d,
   fun _ _ => 0⟩

/-- The effect trace of `StartHostapd` is one of three concrete lists:
skip (status already running), failed write, successful write. -/
theorem StartHostapd_trace_cases (env : PropEnv) :
    (StartHostapd env).2 =
      [Effect.propGet kHostapdFullServiceName "",
       Effect.logDebug "SoftAP already started. Skip another start"] ∨
    (StartHostapd env).2 =
      [Effect.propGet kHostapdFullServiceName "",
       Effect.propSet "ctl.start" kHostapdServiceName,
       Effect.logError "Failed to start SoftAP"] ∨
    (StartHostapd env).2 =
      [Effect.propGet kHostapdFullServiceName "",
       Effect.propSet "ctl.start" kHostapdServiceName,
       Effect.logDebug "SoftAP started successfully"] := by
  simp only [StartHostapd]
  split
  · exact Or.inl rfl
  · split
    · exact Or.inr (Or.inl rfl)
    · exact Or.inr (Or.inr rfl)

/-- The effect trace of `StopHostapd` is one of three concrete lists:
skip (status stopped/empty), failed write, successful write. -/
theorem StopHostapd_trace_cases (env : PropEnv) :
    (StopHostapd env).2 =
      [Effect.logDebug "Stopping the SoftAP service...",
       Effect.propGet kHostapdFullServiceName "",
       Effect.logDebug "SoftAP already stopped. Skip another stop"] ∨
    (StopHostapd env).2 =
      [Effect.logDebug "Stopping the SoftAP service...",
       Effect.propGet kHostapdFullServiceName "",
       Effect.propSet "ctl.stop" kHostapdServiceName,
       Effect.logError "Failed to stop hostapd service!"] ∨
    (StopHostapd env).2 =
      [Effect.logDebug "Stopping the SoftAP service...",
       Effect.propGet kHostapdFullServiceName "",
       Effect.propSet "ctl.stop" kHostapdServiceName,
       Effect.logDebug "SoftAP stopped successfully"] := by
  simp only [StopHostapd]
  split
  · exact Or.inl rfl
  · split
    · exact Or.inr (Or.inl rfl)
    · exact Or.inr (Or.inr rfl)

/-- A string has length 0 exactly when it is the empty string. -/
theorem string_length_zero_iff (s : String) : s.length = 0 ↔ s = "" := by
  cases s with
  | mk data =>
    cases data <;> simp [String.length, String.ext_iff]

/-- C1, counterexample: with status `"running"` (neither `"stopped"` nor
empty) and a control-write result of `1` (non-zero, positive),
`StopHostapd` issues exactly one control write and returns `true`,
contradicting the claim that any non-zero write result yields `false`:
the code tests `property_set(...) < 0`, not `!= 0`. -/
theorem C1_counterexample :
    envPos.get kHostapdFullServiceName "" = "running" ∧
    envPos.set "ctl.stop" kHostapdServiceName = 1 ∧
    numWrites (StopHostapd envPos).2 = 1 ∧
    (StopHostapd envPos).1 = true := by
  decide

/-- C1 (amended): for every status string other than `"stopped"` and other
than the empty string, `StopHostapd` issues exactly one control write
requesting stop, and returns `true` iff the write result is non-negative
(it returns `false` exactly when the write result is negative). -/
theorem C1_stop_write_result (env : PropEnv)
    (h1 : env.get kHostapdFullServiceName "" ≠ "stopped")
    (h2 : env.get kHostapdFullServiceName "" ≠ "") :
    writesOf (StopHostapd env).2 = [Effect.propSet "ctl.stop" kHostapdServiceName] ∧
    ((StopHostapd env).1 = true ↔ 0 ≤ env.set "ctl.stop" kHostapdServiceName) := by
  have hlen : ¬ (env.get kHostapdFullServiceName "").length = 0 := by
    simpa [string_length_zero_iff] using h2
  by_cases hw : env.set "ctl.stop" kHostapdServiceName < 0
  · simp [StopHostapd, hlen, h1, hw, writesOf, isPropSet, Int.not_le.mpr hw]
  · simp [StopHostapd, hlen, h1, hw, writesOf, isPropSet, Int.not_lt.mp hw]

/-- C1 witness: the amended theorem at the concrete environment `envD`. -/
theorem C1_stop_write_result_witness :
    writesOf (StopHostapd envD).2 = [Effect.propSet "ctl.stop" kHostapdServiceName] ∧
    ((StopHostapd envD).1 = true ↔ 0 ≤ envD.set "ctl.stop" kHostapdServiceName) :=
  C1_stop_write_result envD (by decide) (by decide)

/-- C2: for every status string other than `"running"`, `StartHostapd`
issues exactly one control write requesting start, and returns `true` iff
the write result is zero (`false` on any non-zero result). -/
theorem C2_start_write_result (env : PropEnv)
    (h : env.get kHostapdFullServiceName "" ≠ "running") :
    writesOf (StartHostapd env).2 = [Effect.propSet "ctl.start" kHostapdServiceName] ∧
    ((StartHostapd env).1 = true ↔ env.set "ctl.start" kHostapdServiceName = 0) := by
  by_cases hw : env.set "ctl.start" kHostapdServiceName = 0
  · simp [StartHostapd, h, hw, writesOf, isPropSet]
  · simp [StartHostapd, h, hw, writesOf, isPropSet]

/-- C2 witness: the theorem at the concrete environment `envB`. -/
theorem C2_start_write_result_witness :
    writesOf (StartHostapd envB).2 = [Effect.propSet "ctl.start" kHostapdServiceName] ∧
    ((StartHostapd envB).1 = true ↔ envB.set "ctl.start" kHostapdServiceName = 0) :=
  C2_start_write_result envB (by decide)

/-- C3: whenever the status read yields exactly `"running"`,
`StartHostapd` returns `true` and issues zero control writes. -/
theorem C3_start_idempotent (env : PropEnv)
    (h : env.get kHostapdFullServiceName "" = "running") :
    (StartHostapd env).1 = true ∧ writesOf (StartHostapd env).2 = [] := by
  simp [StartHostapd, h, writesOf, isPropSet]

/-- C3 witness: the theorem at the concrete environment `envA`. -/
theorem C3_start_idempotent_witness :
    (StartHostapd envA).1 = true ∧ writesOf (StartHostapd envA).2 = [] :=
  C3_start_idempotent envA rfl

/-- C4: whenever the status read yields exactly `"stopped"` or the empty
string, `StopHostapd` returns `true` and issues zero control writes. -/
theorem C4_stop_idempotent (env : PropEnv)
    (h : env.get kHostapdFullServiceName "" = "stopped" ∨
         env.get kHostapdFullServiceName "" = "") :
    (StopHostapd env).1 = true ∧ writesOf (StopHostapd env).2 = [] := by
  rcases h with h | h
  · simp [StopHostapd, h, writesOf, isPropSet]
  · simp [StopHostapd, h, writesOf, isPropSet]

/-- C4 witness: the theorem at the concrete environment `envC`. -/
theorem C4_stop_idempotent_witness :
    (StopHostapd envC).1 = true ∧ writesOf (StopHostapd envC).2 = [] :=
  C4_stop_idempotent envC (Or.inl rfl)

/-- C5: neither operation ever writes a control command when the status
read already shows the requested terminal state: `StartHostapd` writes
nothing when the status is `"running"`, and `StopHostapd` writes nothing
when the status is `"stopped"` or empty. -/
theorem C5_no_redundant_command (env : PropEnv) :
    (env.get kHostapdFullServiceName "" = "running" →
      writesOf (StartHostapd env).2 = []) ∧
    ((env.get kHostapdFullServiceName "" = "stopped" ∨
      env.get kHostapdFullServiceName "" = "") →
      writesOf (StopHostapd env).2 = []) := by
  constructor
  · intro h
    simp [StartHostapd, h, writesOf, isPropSet]
  · rintro (h | h)
    · simp [StopHostapd, h, writesOf, isPropSet]
    · simp [StopHostapd, h, writesOf, isPropSet]

/-- C5 witness: both conjuncts instantiated at concrete environments. -/
theorem C5_no_redundant_command_witness :
    writesOf (StartHostapd envA).2 = [] ∧ writesOf (StopHostapd envC).2 = [] :=
  ⟨(C5_no_redundant_command envA).1 rfl, (C5_no_redundant_command envC).2 (Or.inl rfl)⟩

/-- C6: for every environment (hence for every status value and every
write result), each operation performs at most one property write, and
every effect in its trace is the status read, a property write, or a log
line. -/
theorem C6_at_most_one_write (env : PropEnv) :
    numWrites (StartHostapd env).2 ≤ 1 ∧
    numWrites (StopHostapd env).2 ≤ 1 ∧
    (StartHostapd env).2.all
      (fun e => e == Effect.propGet kHostapdFullServiceName "" ||
        isPropSet e || isLog e) = true ∧
    (StopHostapd env).2.all
      (fun e => e == Effect.propGet kHostapdFullServiceName "" ||
        isPropSet e || isLog e) = true := by
  rcases StartHostapd_trace_cases env with h | h | h <;>
  rcases StopHostapd_trace_cases env with h2 | h2 | h2 <;>
  rw [h, h2] <;> decide

/-- C7: when a control write is issued its key-value pair is fixed
(`"ctl.start"`/`"hostapd"` for start, `"ctl.stop"`/`"hostapd"` for stop);
moreover Scenario B (status unset, write succeeds: start returns `true`
with that one write) and Scenario D (status `"running"`, write fails:
stop returns `false` with that one write attempted) hold. -/
theorem C7_fixed_write_kv (env : PropEnv) :
    (writesOf (StartHostapd env).2 = [] ∨
      writesOf (StartHostapd env).2 = [Effect.propSet "ctl.start" kHostapdServiceName]) ∧
    (writesOf (StopHostapd env).2 = [] ∨
      writesOf (StopHostapd env).2 = [Effect.propSet "ctl.stop" kHostapdServiceName]) ∧
    ((StartHostapd envB).1 = true ∧
      writesOf (StartHostapd envB).2 = [Effect.propSet "ctl.start" kHostapdServiceName]) ∧
    ((StopHostapd envD).1 = false ∧
      writesOf (StopHostapd envD).2 = [Effect.propSet "ctl.stop" kHostapdServiceName]) := by
  rcases StartHostapd_trace_cases env with h | h | h <;>
  rcases StopHostapd_trace_cases env with h2 | h2 | h2 <;>
  rw [h, h2] <;> decide

/-- C8: every property write of `StartHostapd` targets key `"ctl.start"`
and every property write of `StopHostapd` targets key `"ctl.stop"`; in
particular neither writes the status key `"init.svc.hostapd"` nor the
other operation's control key. -/
theorem C8_no_foreign_key_writes (env : PropEnv) :
    (StartHostapd env).2.all (fun e => !isPropSet e || setsToKey "ctl.start" e) = true ∧
    (StopHostapd env).2.all (fun e => !isPropSet e || setsToKey "ctl.stop" e) = true := by
  rcases StartHostapd_trace_cases env with h | h | h <;>
  rcases StopHostapd_trace_cases env with h2 | h2 | h2 <;>
  rw [h, h2] <;> decide

/-- C9: both operations are deterministic functions of the observed status
value and the observed control-write result: two environments agreeing on
those observations produce identical boolean results and identical effect
traces. -/
theorem C9_deterministic (env1 env2 : PropEnv)
    (hg : env1.get kHostapdFullServiceName "" = env2.get kHostapdFullServiceName "")
    (hs1 : env1.set "ctl.start" kHostapdServiceName =
      env2.set "ctl.start" kHostapdServiceName)
    (hs2 : env1.set "ctl.stop" kHostapdServiceName =
      env2.set "ctl.stop" kHostapdServiceName) :
    StartHostapd env1 = StartHostapd env2 ∧ StopHostapd env1 = StopHostapd env2 := by
  constructor <;> simp [StartHostapd, StopHostapd, hg, hs1, hs2]

/-- C9 witness: the theorem at a concrete pair of environments. -/
theorem C9_deterministic_witness :
    StartHostapd envA = StartHostapd envA2 ∧ StopHostapd envA = StopHostapd envA2 :=
  C9_deterministic envA envA2 (by decide) (by decide) (by decide)

/-- C10: each operation performs exactly one property read, of the key
`"init.svc.hostapd"` with default value `""`, and that read precedes every
property write of the same call: the property-store accesses of the trace
are exactly the read followed by the writes. -/
theorem C10_single_read_first (env : PropEnv) :
    accessesOf (StartHostapd env).2 =
      Effect.propGet kHostapdFullServiceName "" :: writesOf (StartHostapd env).2 ∧
    accessesOf (StopHostapd env).2 =
      Effect.propGet kHostapdFullServiceName "" :: writesOf (StopHostapd env).2 := by
  rcases StartHostapd_trace_cases env with h | h | h <;>
  rcases StopHostapd_trace_cases env with h2 | h2 | h2 <;>
  rw [h, h2] <;> decide

end HostapdManager
